import Mathlib

/-
Verification of the Portfolio Economics Model of the ZEEL content EV
simulator (src/app.py).  The core financial logic (lines 29-76, 100,
118-121, 142-146 of src/app.py) is a pure closed-form computation on
real-valued inputs; it is embedded here over ℚ, which represents every
constant of the source (0.2, 1.1, 2.0, 0.85, 1.20, slider values) exactly,
so the floating-point-tolerance statements of the spec become exact
equalities or inequalities over ℚ.
-/

namespace ZeelSim

/-- Input parameter set of the model: the four slider values of
src/app.py lines 29-35 (`c_tv`, `c_pilot`, `flop_rate`, `hit_rate`),
already converted to fractions as the source does (`/ 100.0`). -/
structure Params where
  c_tv : ℚ
  c_pilot : ℚ
  flop_rate : ℚ
  hit_rate : ℚ

/-- Portfolio size, fixed at 10 (src/app.py line 43: `N = 10`). -/
def N : ℚ := 10

/-- Derived average rate (src/app.py line 36: `avg_rate = 1.0 - flop_rate - hit_rate`). -/
def avg_rate (p : Params) : ℚ := 1 - p.flop_rate - p.hit_rate

/-- Revenue of a flop show (src/app.py line 46: `rev_flop = c_tv * 0.2`). -/
def rev_flop (p : Params) : ℚ := p.c_tv * 0.2

/-- Revenue of an average show (src/app.py line 47: `rev_avg = c_tv * 1.1`). -/
def rev_avg (p : Params) : ℚ := p.c_tv * 1.1

/-- Revenue of a hit show (src/app.py line 48: `rev_hit = c_tv * 2.0`). -/
def rev_hit (p : Params) : ℚ := p.c_tv * 2.0

/-- Legacy total cost (src/app.py line 51: `leg_cost = N * c_tv`). -/
def leg_cost (p : Params) : ℚ := N * p.c_tv

/-- Legacy total revenue (src/app.py line 52). -/
def leg_rev (p : Params) : ℚ :=
  N * ((p.flop_rate * rev_flop p) + (avg_rate p * rev_avg p) + (p.hit_rate * rev_hit p))

/-- Legacy ROI (src/app.py line 53: `leg_roi = leg_rev - leg_cost`). -/
def leg_roi (p : Params) : ℚ := leg_rev p - leg_cost p

/-- Total pilot spend (src/app.py line 57: `pilot_spend = N * c_pilot`). -/
def pilot_spend (p : Params) : ℚ := N * p.c_pilot

/-- Number of flops killed at the pilot gate (src/app.py line 61). -/
def flops_killed (p : Params) : ℚ := N * p.flop_rate

/-- Per-show cost of an average show under the 70/30 contract
(src/app.py line 67: `cost_avg_show = c_pilot + (c_tv * 0.85)`). -/
def cost_avg_show (p : Params) : ℚ := p.c_pilot + p.c_tv * 0.85

/-- Per-show cost of a hit show under the 70/30 contract
(src/app.py line 68: `cost_hit_show = c_pilot + (c_tv * 1.20)`). -/
def cost_hit_show (p : Params) : ℚ := p.c_pilot + p.c_tv * 1.20

/-- Production cost of average shows (src/app.py line 70). -/
def prop_cost_avg (p : Params) : ℚ := (N * avg_rate p) * cost_avg_show p

/-- Production cost of hit shows (src/app.py line 71). -/
def prop_cost_hits (p : Params) : ℚ := (N * p.hit_rate) * cost_hit_show p

/-- Proposed total cost (src/app.py line 72). -/
def prop_total_cost (p : Params) : ℚ := pilot_spend p + prop_cost_avg p + prop_cost_hits p

/-- Proposed total revenue (src/app.py line 75); flops earn nothing. -/
def prop_rev (p : Params) : ℚ := (N * avg_rate p * rev_avg p) + (N * p.hit_rate * rev_hit p)

/-- Proposed ROI (src/app.py line 76: `prop_roi = prop_rev - prop_total_cost`). -/
def prop_roi (p : Params) : ℚ := prop_rev p - prop_total_cost p

/-- Free cash flow generated (src/app.py line 100: `cash_freed = prop_roi - leg_roi`). -/
def cash_freed (p : Params) : ℚ := prop_roi p - leg_roi p

/-- Waterfall step 1 (src/app.py line 118: `savings_on_flops = (N * flop_rate) * c_tv`). -/
def savings_on_flops (p : Params) : ℚ := (N * p.flop_rate) * p.c_tv

/-- Waterfall step 2 (src/app.py line 119: `cost_of_piloting = -1 * (N * c_pilot)`). -/
def cost_of_piloting (p : Params) : ℚ := -1 * (N * p.c_pilot)

/-- Waterfall step 4 as the source computes it (src/app.py line 120):
`contract_variance = (leg_cost - ((N * flop_rate * c_tv) + prop_cost_avg +
prop_cost_hits + cost_of_piloting)) * -1`. -/
def contract_variance (p : Params) : ℚ :=
  (leg_cost p - ((N * p.flop_rate * p.c_tv) + prop_cost_avg p + prop_cost_hits p +
    cost_of_piloting p)) * (-1)

/-- Waterfall step 3 (src/app.py line 121:
`lost_salvage_rev = -1 * (N * flop_rate * rev_flop)`). -/
def lost_salvage_rev (p : Params) : ℚ := -1 * (N * p.flop_rate * rev_flop p)

/-- Legacy wasted capital (src/app.py line 142: `leg_waste = (N * flop_rate) * c_tv`). -/
def leg_waste (p : Params) : ℚ := (N * p.flop_rate) * p.c_tv

/-- Legacy productive capital (src/app.py line 143: `leg_productive = leg_cost - leg_waste`). -/
def leg_productive (p : Params) : ℚ := leg_cost p - leg_waste p

/-- Proposed wasted capital (src/app.py line 145: `prop_waste = (N * flop_rate) * c_pilot`). -/
def prop_waste (p : Params) : ℚ := (N * p.flop_rate) * p.c_pilot

/-- Proposed productive capital (src/app.py line 146:
`prop_productive = prop_total_cost - prop_waste`). -/
def prop_productive (p : Params) : ℚ := prop_total_cost p - prop_waste p

/-- The full result set an evaluation produces (spec section 3). -/
structure Result where
  leg_cost : ℚ
  leg_rev : ℚ
  leg_roi : ℚ
  pilot_spend : ℚ
  prop_cost_avg : ℚ
  prop_cost_hits : ℚ
  prop_total_cost : ℚ
  prop_rev : ℚ
  prop_roi : ℚ
  cash_freed : ℚ
  savings_on_flops : ℚ
  cost_of_piloting : ℚ
  contract_variance : ℚ
  lost_salvage_rev : ℚ
  leg_waste : ℚ
  leg_productive : ℚ
  prop_waste : ℚ
  prop_productive : ℚ

/-- One full evaluation of the model.  src/app.py lines 38-40 guard with
`if avg_rate < 0: st.stop()`, halting before any of the financial logic
runs; this is embedded as an Option: `none` when the guard fires, and
otherwise the complete result set, so no partial result can ever be
produced. -/
def evaluate (p : Params) : Option Result :=
  if avg_rate p < 0 then none
  else some
    { leg_cost := leg_cost p
      leg_rev := leg_rev p
      leg_roi := leg_roi p
      pilot_spend := pilot_spend p
      prop_cost_avg := prop_cost_avg p
      prop_cost_hits := prop_cost_hits p
      prop_total_cost := prop_total_cost p
      prop_rev := prop_rev p
      prop_roi := prop_roi p
      cash_freed := cash_freed p
      savings_on_flops := savings_on_flops p
      cost_of_piloting := cost_of_piloting p
      contract_variance := contract_variance p
      lost_salvage_rev := lost_salvage_rev p
      leg_waste := leg_waste p
      leg_productive := leg_productive p
      prop_waste := prop_waste p
      prop_productive := prop_productive p }

/-- Reference default inputs (src/app.py lines 29-35: slider defaults
tv cost 50, pilot cost 2.0, flop rate 60 percent, hit rate 10 percent). -/
def refParams : Params := { c_tv := 50, c_pilot := 2, flop_rate := 0.60, hit_rate := 0.10 }

/-- Inputs inside the documented slider ranges at which the proposed
strategy underperforms the legacy one. -/
def negParams : Params := { c_tv := 20, c_pilot := 5, flop_rate := 0.30, hit_rate := 0.30 }

/-- A second parameter set differing from refParams only in a larger
flop rate, used to witness the monotonicity theorem. -/
def refParamsHighFlop : Params :=
  { c_tv := 50, c_pilot := 2, flop_rate := 0.70, hit_rate := 0.10 }

/-- Claim C1: FALSE on the code.  At the reference inputs the four
waterfall steps of src/app.py lines 118-121 sum to 195.5 = 391/2, while
proposed.roi - legacy.roi = cash_freed = 224.5 = 449/2, so adding the
steps cumulatively to legacy.roi does not reach proposed.roi: the last
bar of the waterfall (a plotly "total", drawn at the running sum 20.5)
contradicts its own hard-coded text label showing prop_roi = 49.5. -/
theorem bridge_sum_mismatch_at_defaults :
    savings_on_flops refParams + cost_of_piloting refParams + lost_salvage_rev refParams +
      contract_variance refParams = 391 / 2 ∧
    cash_freed refParams = 449 / 2 ∧
    savings_on_flops refParams + cost_of_piloting refParams + lost_salvage_rev refParams +
      contract_variance refParams ≠ cash_freed refParams := by
  norm_num [savings_on_flops, cost_of_piloting, lost_salvage_rev, contract_variance,
    cash_freed, prop_roi, leg_roi, prop_rev, prop_total_cost, pilot_spend, prop_cost_avg,
    prop_cost_hits, cost_avg_show, cost_hit_show, leg_rev, leg_cost, rev_flop, rev_avg,
    rev_hit, avg_rate, N, refParams]

/-- Claim C2: FALSE on the code.  At the reference inputs the residual
proposed.roi - legacy.roi - saved_tv_production_on_flops -
micro_pilot_costs - lost_salvage_revenue equals 4.5 = 9/2, but the code
(src/app.py line 120) computes contract_variance = -24.5 = -(49/2): the
code negates the residual and wrongly folds the pilot spend into it. -/
theorem contract_variance_not_residual_at_defaults :
    contract_variance refParams = -(49 / 2) ∧
    cash_freed refParams - savings_on_flops refParams - cost_of_piloting refParams -
      lost_salvage_rev refParams = 9 / 2 ∧
    contract_variance refParams ≠
      cash_freed refParams - savings_on_flops refParams - cost_of_piloting refParams -
        lost_salvage_rev refParams := by
  norm_num [savings_on_flops, cost_of_piloting, lost_salvage_rev, contract_variance,
    cash_freed, prop_roi, leg_roi, prop_rev, prop_total_cost, pilot_spend, prop_cost_avg,
    prop_cost_hits, cost_avg_show, cost_hit_show, leg_rev, leg_cost, rev_flop, rev_avg,
    rev_hit, avg_rate, N, refParams]

/-- Claim C3: evaluation fails (returning no part of the result set) if
and only if flop_rate + hit_rate > 1; in particular at the boundary
flop_rate + hit_rate = 1 it succeeds with a full result set.  The guard
of src/app.py lines 38-40 halts before any financial computation, so on
failure nothing is produced. -/
theorem evaluate_fails_iff (p : Params) :
    (evaluate p = none ↔ 1 < p.flop_rate + p.hit_rate) ∧
    (p.flop_rate + p.hit_rate = 1 → (evaluate p).isSome = true) := by
  have hiff : avg_rate p < 0 ↔ 1 < p.flop_rate + p.hit_rate := by
    unfold avg_rate
    constructor <;> intro h <;> linarith
  constructor
  · unfold evaluate
    by_cases h : avg_rate p < 0
    · rw [if_pos h]
      simp [hiff.mp h]
    · rw [if_neg h]
      simp only [reduceCtorEq, false_iff, not_lt]
      rw [not_lt] at h
      unfold avg_rate at h
      linarith
  · intro hb
    unfold evaluate
    rw [if_neg]
    · rfl
    · rw [hiff]
      rw [hb]
      norm_num

/-- Claim C3 witness: at the boundary input flop_rate = 0.6,
hit_rate = 0.4 the evaluation succeeds. -/
theorem evaluate_fails_iff_witness :
    (evaluate { c_tv := 50, c_pilot := 2, flop_rate := 0.6, hit_rate := 0.4 }).isSome = true :=
  (evaluate_fails_iff { c_tv := 50, c_pilot := 2, flop_rate := 0.6, hit_rate := 0.4 }).2
    (by norm_num)

/-- Claim C4: the legacy strategy satisfies exactly the spec formulas
legacy.cost = N · tv_cost, legacy.revenue = N · (f·rev_flop + a·rev_avg
+ h·rev_hit) with rev_flop = 0.2·tv_cost, rev_avg = 1.1·tv_cost,
rev_hit = 2.0·tv_cost and a = 1 - f - h, and legacy.roi =
legacy.revenue - legacy.cost. -/
theorem legacy_model_formulas (p : Params) :
    leg_cost p = N * p.c_tv ∧
    leg_rev p = N * (p.flop_rate * (0.2 * p.c_tv) +
      (1 - p.flop_rate - p.hit_rate) * (1.1 * p.c_tv) +
      p.hit_rate * (2.0 * p.c_tv)) ∧
    leg_roi p = leg_rev p - leg_cost p := by
  refine ⟨rfl, ?_, rfl⟩
  unfold leg_rev rev_flop rev_avg rev_hit avg_rate
  ring

/-- Claim C5: the proposed strategy satisfies exactly the spec formulas
pilot_spend = N·pilot_cost, production_cost = (N·a)·(pilot_cost +
0.85·tv_cost) + (N·h)·(pilot_cost + 1.20·tv_cost), proposed.cost =
pilot_spend + production_cost, proposed.revenue = N·a·rev_avg +
N·h·rev_hit (flops earn zero revenue), and proposed.roi =
proposed.revenue - proposed.cost. -/
theorem proposed_model_formulas (p : Params) :
    pilot_spend p = N * p.c_pilot ∧
    prop_cost_avg p + prop_cost_hits p =
      (N * (1 - p.flop_rate - p.hit_rate)) * (p.c_pilot + 0.85 * p.c_tv) +
      (N * p.hit_rate) * (p.c_pilot + 1.20 * p.c_tv) ∧
    prop_total_cost p = pilot_spend p + (prop_cost_avg p + prop_cost_hits p) ∧
    prop_rev p = N * (1 - p.flop_rate - p.hit_rate) * (1.1 * p.c_tv) +
      N * p.hit_rate * (2.0 * p.c_tv) ∧
    prop_roi p = prop_rev p - prop_total_cost p := by
  refine ⟨rfl, ?_, ?_, ?_, rfl⟩
  · unfold prop_cost_avg prop_cost_hits cost_avg_show cost_hit_show avg_rate
    ring
  · unfold prop_total_cost
    ring
  · unfold prop_rev rev_avg rev_hit avg_rate
    ring

/-- Claim C6: the reference scenario tv_cost = 50, pilot_cost = 2.0,
flop_rate = 0.60, hit_rate = 0.10, N = 10 yields avg_rate = 0.30,
legacy.cost = 500, legacy.revenue = 325, legacy.roi = -175, pilot_spend
= 20, production_cost = 195.5, proposed.cost = 215.5, proposed.revenue
= 265, proposed.roi = 49.5 and cash_freed = 224.5, all exactly. -/
theorem reference_scenario_values :
    avg_rate refParams = 0.30 ∧
    leg_cost refParams = 500 ∧
    leg_rev refParams = 325 ∧
    leg_roi refParams = -175 ∧
    pilot_spend refParams = 20 ∧
    prop_cost_avg refParams + prop_cost_hits refParams = 195.5 ∧
    prop_total_cost refParams = 215.5 ∧
    prop_rev refParams = 265 ∧
    prop_roi refParams = 49.5 ∧
    cash_freed refParams = 224.5 := by
  norm_num [avg_rate, leg_cost, leg_rev, leg_roi, pilot_spend, prop_cost_avg,
    prop_cost_hits, prop_total_cost, prop_rev, prop_roi, cash_freed, cost_avg_show,
    cost_hit_show, rev_flop, rev_avg, rev_hit, N, refParams]

/-- Claim C7: the capital split satisfies legacy.wasted_capital =
N·f·tv_cost, proposed.wasted_capital = N·f·pilot_cost, and for each
strategy wasted plus productive capital equals that strategy total
cost. -/
theorem capital_split_formulas (p : Params) :
    leg_waste p = N * p.flop_rate * p.c_tv ∧
    prop_waste p = N * p.flop_rate * p.c_pilot ∧
    leg_waste p + leg_productive p = leg_cost p ∧
    prop_waste p + prop_productive p = prop_total_cost p := by
  refine ⟨?_, ?_, ?_, ?_⟩
  · unfold leg_waste
    ring
  · unfold prop_waste
    ring
  · unfold leg_productive
    ring
  · unfold prop_productive
    ring

/-- Claim C8: if two inputs agree on hit_rate, tv_cost and pilot_cost
(and the fixed portfolio size) and one has a strictly larger flop_rate,
then with tv_cost > 0 the larger flop rate gives strictly smaller
legacy revenue and strictly smaller legacy ROI. -/
theorem legacy_rev_monotone_in_flop_rate (p q : Params)
    (hc : q.c_tv = p.c_tv) (hcp : q.c_pilot = p.c_pilot)
    (hh : q.hit_rate = p.hit_rate) (hf : p.flop_rate < q.flop_rate)
    (htv : 0 < p.c_tv) :
    leg_rev q < leg_rev p ∧ leg_roi q < leg_roi p := by
  have hrev : leg_rev q < leg_rev p := by
    unfold leg_rev rev_flop rev_avg rev_hit avg_rate N
    rw [hc, hh]
    nlinarith [mul_pos htv (sub_pos.mpr hf)]
  refine ⟨hrev, ?_⟩
  unfold leg_roi leg_cost
  rw [hc]
  linarith

/-- Claim C8 witness: moving the flop rate from 0.60 to 0.70 at the
reference inputs strictly decreases legacy revenue and ROI. -/
theorem legacy_rev_monotone_in_flop_rate_witness :
    leg_rev refParamsHighFlop < leg_rev refParams ∧
    leg_roi refParamsHighFlop < leg_roi refParams :=
  legacy_rev_monotone_in_flop_rate refParams refParamsHighFlop rfl rfl rfl
    (by norm_num [refParams, refParamsHighFlop]) (by norm_num [refParams])

/-- Claim C9: the legacy revenue exceeds the proposed revenue by exactly
N·flop_rate·rev_flop; for valid inputs (flop_rate ≥ 0, tv_cost > 0) this
is nonnegative, so proposed.revenue ≤ legacy.revenue, with equality
exactly when flop_rate·tv_cost = 0. -/
theorem proposed_rev_le_legacy_rev (p : Params)
    (hf : 0 ≤ p.flop_rate) (htv : 0 < p.c_tv) :
    leg_rev p - prop_rev p = N * p.flop_rate * rev_flop p ∧
    prop_rev p ≤ leg_rev p ∧
    (prop_rev p = leg_rev p ↔ p.flop_rate * p.c_tv = 0) := by
  have hdiff : leg_rev p - prop_rev p = 2 * (p.flop_rate * p.c_tv) := by
    unfold leg_rev prop_rev rev_flop rev_avg rev_hit avg_rate N
    ring
  refine ⟨?_, ?_, ?_⟩
  · unfold leg_rev prop_rev rev_flop rev_avg rev_hit avg_rate N
    ring
  · nlinarith [mul_nonneg hf htv.le]
  · constructor
    · intro heq
      have : (2 : ℚ) * (p.flop_rate * p.c_tv) = 0 := by rw [← hdiff, heq]; ring
      linarith
    · intro h0
      have : leg_rev p - prop_rev p = 0 := by rw [hdiff, h0]; ring
      linarith

/-- Claim C9 witness: at the reference inputs the revenue gap is
N·f·rev_flop = 60 and proposed revenue 265 is below legacy revenue 325. -/
theorem proposed_rev_le_legacy_rev_witness :
    leg_rev refParams - prop_rev refParams = N * refParams.flop_rate * rev_flop refParams ∧
    prop_rev refParams ≤ leg_rev refParams ∧
    (prop_rev refParams = leg_rev refParams ↔ refParams.flop_rate * refParams.c_tv = 0) :=
  proposed_rev_le_legacy_rev refParams (by norm_num [refParams]) (by norm_num [refParams])

/-- Claim C10: there is an input inside the documented slider ranges
(tv_cost in [20,100], pilot_cost in [1,5], flop_rate in [0.30,0.80],
hit_rate in [0.05,0.30], flop_rate + hit_rate ≤ 1) whose cash_freed is
strictly negative, namely tv_cost = 20, pilot_cost = 5, flop_rate =
0.30, hit_rate = 0.30, where cash_freed = -37: the proposed strategy
does not dominate the legacy one on all admissible inputs. -/
theorem exists_negative_cash_freed :
    ∃ p : Params,
      20 ≤ p.c_tv ∧ p.c_tv ≤ 100 ∧ 1 ≤ p.c_pilot ∧ p.c_pilot ≤ 5 ∧
      0.30 ≤ p.flop_rate ∧ p.flop_rate ≤ 0.80 ∧
      0.05 ≤ p.hit_rate ∧ p.hit_rate ≤ 0.30 ∧
      p.flop_rate + p.hit_rate ≤ 1 ∧
      cash_freed p = -37 ∧ cash_freed p < 0 := by
  refine ⟨negParams, ?_⟩
  norm_num [negParams, cash_freed, prop_roi, leg_roi, prop_rev, prop_total_cost,
    pilot_spend, prop_cost_avg, prop_cost_hits, cost_avg_show, cost_hit_show,
    leg_rev, leg_cost, rev_flop, rev_avg, rev_hit, avg_rate, N]

end ZeelSim
